import Mathlib

/-!
Verification of the coinflip-solana escrow wager engine against its
natural-language specification.  The Python source is shallowly embedded:
pure functions become Lean functions, stateful database / chain code
becomes explicit state passing, fallible code returns `Option` / `Except`,
and machine arithmetic that matters is spelled out over `Nat` / `Rat`.
-/

namespace Coinflip

/-! ## Wager store (src/backend/database/repo.py)

The `wagers` table is modelled as a list of rows; `wager_id` is the key
used by the SQL `WHERE` clauses.  `Database.atomic_accept_wager` runs

    UPDATE wagers SET status = 'accepting', acceptor_id = ?
    WHERE wager_id = ? AND status = 'open'

inside a `BEGIN EXCLUSIVE` transaction, commits when `rowcount` is
nonzero and rolls back (returning `False`) when it is zero. -/

structure WagerRow where
  wagerId : String
  status : String
  acceptorId : Option Int
  amount : Rat
  creatorWallet : String
  creatorEscrowAddress : Option String
  creatorDepositTx : Option String
  deriving Repr, DecidableEq

/-- Predicate of the SQL `WHERE wager_id = ? AND status = 'open'` clause. -/
def acceptMatches (wagerId : String) (r : WagerRow) : Bool :=
  r.wagerId == wagerId && r.status == "open"

/-- Effect of the SQL `SET status = 'accepting', acceptor_id = ?` clause on
one matched row. -/
def acceptUpdate (acceptorId : Int) (r : WagerRow) : WagerRow :=
  { r with status := "accepting", acceptorId := some acceptorId }

/-- `Database.atomic_accept_wager` (repo.py): one exclusive transaction that
updates the row with the given id while it is still `open`; commits and
returns `true` when the update touched a row, rolls back and returns
`false` when `rowcount = 0`. -/
def atomic_accept_wager (table : List WagerRow) (wagerId : String)
    (acceptorId : Int) : Bool × List WagerRow :=
  let rowcount := table.countP (acceptMatches wagerId)
  let updated := table.map fun r =>
    if acceptMatches wagerId r then acceptUpdate acceptorId r else r
  if rowcount = 0 then
    (false, table)
  else
    (true, updated)

/-! ## Chain transactions and the deposit verifier
(src/backend/game/solana_ops.py)

`get_transaction` is modelled as a partial map from signatures to parsed
transaction records.  A parsed instruction either is a system-program
`transfer` with `source` / `destination` / `lamports` info, or something
the verifier skips. -/

structure TransferInfo where
  source : String
  destination : String
  lamports : Nat
  deriving Repr, DecidableEq

inductive Instruction where
  | transferIx : TransferInfo → Instruction
  | otherIx : Instruction
  deriving Repr, DecidableEq

structure TxRecord where
  metaErr : Bool
  instructions : List Instruction
  deriving Repr, DecidableEq

/-- The chain as seen through `client.get_transaction`. -/
def Chain : Type := String → Option TxRecord

def LAMPORTS_PER_SOL : Nat := 1000000000

/-- `lamports / LAMPORTS_PER_SOL`, exact in the rationals. -/
def solOfLamports (lamports : Nat) : Rat :=
  (lamports : Rat) / (LAMPORTS_PER_SOL : Rat)

/-- One iteration of the instruction loop in `verify_deposit_to_escrow`:
a parsed `transfer` whose destination is the expected escrow and whose
amount is within `tolerance` of the expected amount.  The sender field is
never consulted. -/
def escrowTransferMatches (expectedRecipient : String)
    (expectedAmount tolerance : Rat) : Instruction → Bool
  | .transferIx info =>
      info.destination == expectedRecipient &&
        decide (|solOfLamports info.lamports - expectedAmount| ≤ tolerance)
  | .otherIx => false

/-- `verify_deposit_to_escrow` (solana_ops.py): fetch the transaction,
fail if absent or failed on-chain, then scan the parsed instructions for a
matching transfer.  Default `tolerance` at the call sites is `0.001`. -/
def verify_deposit_to_escrow (chain : Chain) (txSignature : String)
    (expectedRecipient : String) (expectedAmount : Rat)
    (tolerance : Rat) : Bool :=
  match chain txSignature with
  | none => false
  | some tx =>
      if tx.metaErr then false
      else tx.instructions.any
        (escrowTransferMatches expectedRecipient expectedAmount tolerance)

/-- Rewrite the `source` field of every transfer instruction (used to state
sender-independence of the verifier). -/
def rewriteSource (f : String → String) : Instruction → Instruction
  | .transferIx info => .transferIx { info with source := f info.source }
  | .otherIx => .otherIx

/-- Rewrite every sender recorded on the chain. -/
def rewriteChainSenders (f : String → String) (chain : Chain) : Chain :=
  fun sig => (chain sig).map fun tx =>
    { tx with instructions := tx.instructions.map (rewriteSource f) }

/-! ## Used-signature ledger and the confirm-deposit endpoint
(src/backend/database/repo.py, src/backend/api.py)

`used_signatures` is a table unique on `signature`;
`save_used_signature` is an `INSERT OR IGNORE`, `signature_already_used`
a keyed `SELECT`.  `verify_wager_deposit` (the `confirmDeposit`
operation) is the endpoint activating a wager once its creator's deposit
is verified. -/

structure UsedSig where
  signature : String
  userWallet : String
  usedFor : String
  deriving Repr, DecidableEq

structure ApiState where
  wagers : List WagerRow
  usedSignatures : List UsedSig
  deriving Repr, DecidableEq

/-- `Database.get_wager`: keyed lookup. -/
def get_wager (st : ApiState) (wagerId : String) : Option WagerRow :=
  st.wagers.find? fun r => r.wagerId == wagerId

/-- `Database.signature_already_used`: keyed existence check. -/
def signature_already_used (st : ApiState) (sig : String) : Bool :=
  st.usedSignatures.any fun u => u.signature == sig

/-- `Database.save_used_signature`: `INSERT OR IGNORE` on the unique
`signature` column. -/
def save_used_signature (st : ApiState) (u : UsedSig) : ApiState :=
  if st.usedSignatures.any fun v => v.signature == u.signature then st
  else { st with usedSignatures := st.usedSignatures ++ [u] }

/-- `Database.save_wager`: `INSERT OR REPLACE` keyed on `wager_id`. -/
def save_wager (st : ApiState) (w : WagerRow) : ApiState :=
  if st.wagers.any fun r => r.wagerId == w.wagerId then
    { st with wagers := st.wagers.map fun r =>
        if r.wagerId == w.wagerId then w else r }
  else { st with wagers := st.wagers ++ [w] }

/-- The distinct HTTP failures raised by `verify_wager_deposit`, in the
order the code checks them. -/
inductive DepositError where
  | wagerNotFound
  | wagerNotAwaitingDeposit
  | signatureAlreadyUsed
  | verificationFailed
  deriving Repr, DecidableEq

/-- `verify_wager_deposit` (api.py): look the wager up, require status
`pending_deposit`, reject an already-consumed signature, verify the
deposit on-chain against the creator escrow for exactly `wager.amount`
(tolerance `0.001`), then — only on success — record the signature as
used and flip the wager to `open` with the deposit signature stored.
Every failure path returns before any write. -/
def verify_wager_deposit (chain : Chain) (st : ApiState)
    (wagerId txSignature : String) : Option DepositError × ApiState :=
  match get_wager st wagerId with
  | none => (some .wagerNotFound, st)
  | some w =>
      if w.status ≠ "pending_deposit" then (some .wagerNotAwaitingDeposit, st)
      else if signature_already_used st txSignature then
        (some .signatureAlreadyUsed, st)
      else
        let isValid := match w.creatorEscrowAddress with
          | some escrow =>
              verify_deposit_to_escrow chain txSignature escrow w.amount
                (1 / 1000)
          | none => false
        if isValid = false then (some .verificationFailed, st)
        else
          let st1 := save_used_signature st
            ⟨txSignature, w.creatorWallet, "wager_deposit_" ++ wagerId⟩
          let st2 := save_wager st1
            { w with status := "open", creatorDepositTx := some txSignature }
          (none, st2)

/-- A one-wager store whose wager `w1` awaits its creator deposit into
escrow `ESCROW1`. -/
def exStateC2 : ApiState :=
  { wagers := [⟨"w1", "pending_deposit", none, 1, "CW", some "ESCROW1", none⟩],
    usedSignatures := [] }

/-- A chain holding exactly one successful transaction `SIG1`: a 1 SOL
transfer from `SENDER` into `ESCROW1`. -/
def exChainC2 : Chain := fun sig =>
  if sig = "SIG1" then
    some ⟨false, [.transferIx ⟨"SENDER", "ESCROW1", 1000000000⟩]⟩
  else none

/-! ## SHA-256 and the outcome oracle (src/backend/game/coinflip.py)

`hashlib.sha256` is embedded as the standard FIPS 180-4 algorithm over
byte lists, with 32-bit words as `Nat` reduced mod `2 ^ 32`. -/

/-- Truncation to a 32-bit word. -/
def w32 (n : Nat) : Nat := n % 4294967296

/-- 32-bit right rotation. -/
def rotr32 (x n : Nat) : Nat := w32 ((x >>> n) ||| (x <<< (32 - n)))

def ch32 (x y z : Nat) : Nat := (x &&& y) ^^^ ((4294967295 - w32 x) &&& z)

def maj32 (x y z : Nat) : Nat := (x &&& y) ^^^ (x &&& z) ^^^ (y &&& z)

def bsig0 (x : Nat) : Nat := rotr32 x 2 ^^^ rotr32 x 13 ^^^ rotr32 x 22

def bsig1 (x : Nat) : Nat := rotr32 x 6 ^^^ rotr32 x 11 ^^^ rotr32 x 25

def ssig0 (x : Nat) : Nat := rotr32 x 7 ^^^ rotr32 x 18 ^^^ (x >>> 3)

def ssig1 (x : Nat) : Nat := rotr32 x 17 ^^^ rotr32 x 19 ^^^ (x >>> 10)

/-- The 64 SHA-256 round constants. -/
def sha256K : List Nat :=
  [1116352408, 1899447441, 3049323471,
   3921009573, 961987163, 1508970993,
   2453635748, 2870763221, 3624381080,
   310598401, 607225278, 1426881987,
   1925078388, 2162078206, 2614888103,
   3248222580, 3835390401, 4022224774,
   264347078, 604807628, 770255983,
   1249150122, 1555081692, 1996064986,
   2554220882, 2821834349, 2952996808,
   3210313671, 3336571891, 3584528711,
   113926993, 338241895, 666307205,
   773529912, 1294757372, 1396182291,
   1695183700, 1986661051, 2177026350,
   2456956037, 2730485921, 2820302411,
   3259730800, 3345764771, 3516065817,
   3600352804, 4094571909, 275423344,
   430227734, 506948616, 659060556,
   883997877, 958139571, 1322822218,
   1537002063, 1747873779, 1955562222,
   2024104815, 2227730452, 2361852424,
   2428436474, 2756734187, 3204031479,
   3329325298]

/-- The SHA-256 working state: eight 32-bit registers. -/
structure Hash8 where
  a : Nat
  b : Nat
  c : Nat
  d : Nat
  e : Nat
  f : Nat
  g : Nat
  h : Nat
  deriving Repr, DecidableEq

/-- The SHA-256 initial hash value. -/
def sha256Init : Hash8 :=
  ⟨1779033703, 3144134277, 1013904242, 2773480762,
   1359893119, 2600822924, 528734635, 1541459225⟩

/-- The eight bytes of the big-endian 64-bit message length field. -/
def bytesBE8 (n : Nat) : List Nat :=
  [(n >>> 56) % 256, (n >>> 48) % 256, (n >>> 40) % 256, (n >>> 32) % 256,
   (n >>> 24) % 256, (n >>> 16) % 256, (n >>> 8) % 256, n % 256]

/-- The four bytes of a 32-bit word, big-endian. -/
def bytesBE4 (n : Nat) : List Nat :=
  [(n >>> 24) % 256, (n >>> 16) % 256, (n >>> 8) % 256, n % 256]

/-- FIPS 180-4 padding: append `0x80`, zeros to 56 mod 64, then the
bit length, big-endian over 8 bytes. -/
def padMessage (msg : List Nat) : List Nat :=
  let L := msg.length
  let zeros := (119 - (L % 64)) % 64
  msg ++ 128 :: List.replicate zeros 0 ++ bytesBE8 (L * 8)

/-- Split the padded message into 64-byte blocks. -/
def toBlocks (l : List Nat) : List (List Nat) :=
  if h : l = [] then []
  else
    have : (l.drop 64).length < l.length := by
      cases l with
      | nil => exact absurd rfl h
      | cons x t => simp [List.length_drop]; omega
    l.take 64 :: toBlocks (l.drop 64)
termination_by l.length

/-- Group bytes into 32-bit big-endian words. -/
def words16 : List Nat → List Nat
  | b0 :: b1 :: b2 :: b3 :: rest =>
      (b0 * 16777216 + b1 * 65536 + b2 * 256 + b3) :: words16 rest
  | _ => []

/-- Extend the 16 message words to the 64-entry message schedule. -/
def sha256Schedule (block : List Nat) : List Nat :=
  (List.range 48).foldl
    (fun w _ =>
      let t := w.length
      w ++ [w32 (ssig1 (w.getD (t - 2) 0) + w.getD (t - 7) 0 +
        ssig0 (w.getD (t - 15) 0) + w.getD (t - 16) 0)])
    (words16 block)

/-- One SHA-256 round. -/
def sha256Round (s : Hash8) (kw : Nat × Nat) : Hash8 :=
  let t1 := w32 (s.h + bsig1 s.e + ch32 s.e s.f s.g + kw.1 + kw.2)
  let t2 := w32 (bsig0 s.a + maj32 s.a s.b s.c)
  ⟨w32 (t1 + t2), s.a, s.b, s.c, w32 (s.d + t1), s.e, s.f, s.g⟩

/-- Compress one 64-byte block into the running hash. -/
def sha256Compress (s : Hash8) (block : List Nat) : Hash8 :=
  let t := (sha256K.zip (sha256Schedule block)).foldl sha256Round s
  ⟨w32 (s.a + t.a), w32 (s.b + t.b), w32 (s.c + t.c), w32 (s.d + t.d),
   w32 (s.e + t.e), w32 (s.f + t.f), w32 (s.g + t.g), w32 (s.h + t.h)⟩

/-- The final hash state over a whole byte message. -/
def sha256State (msg : List Nat) : Hash8 :=
  (toBlocks (padMessage msg)).foldl sha256Compress sha256Init

/-- Big-endian byte serialisation of a hash state. -/
def digestBytes (s : Hash8) : List Nat :=
  bytesBE4 s.a ++ bytesBE4 s.b ++ bytesBE4 s.c ++ bytesBE4 s.d ++
  bytesBE4 s.e ++ bytesBE4 s.f ++ bytesBE4 s.g ++ bytesBE4 s.h

/-- `hashlib.sha256(...).digest()`: the 32 digest bytes. -/
def sha256 (msg : List Nat) : List Nat := digestBytes (sha256State msg)

/-- UTF-8 bytes of a string (`str.encode()` in the source). -/
def strBytes (s : String) : List Nat :=
  s.toUTF8.data.toList.map UInt8.toNat

/-- Lower-case hex character of a value below 16. -/
def hexChar (n : Nat) : Char :=
  if n < 10 then Char.ofNat (48 + n) else Char.ofNat (87 + n)

/-- The two hex characters of one byte (`format(b, "02x")`). -/
def byteHexChars (b : Nat) : List Char := [hexChar (b / 16), hexChar (b % 16)]

/-- `hashlib.sha256(...).hexdigest()` as a character sequence. -/
def hexdigestChars (digest : List Nat) : List Char :=
  (digest.map byteHexChars).flatten

/-- Numeric value of one lower-case hex character. -/
def hexVal (c : Char) : Nat :=
  if c.toNat ≥ 97 then c.toNat - 87 else c.toNat - 48

/-- `int(s, 16)` over a hex character sequence. -/
def parseHexNat (cs : List Char) : Nat :=
  cs.foldl (fun acc c => acc * 16 + hexVal c) 0

inductive CoinSide where
  | HEADS
  | TAILS
  deriving Repr, DecidableEq

/-- `flip_coin` (coinflip.py): seed is the concatenation
`blockhash ++ game_id`; hash it with SHA-256, parse the first two hex
characters of the hexdigest as a byte, and map even to `HEADS`, odd to
`TAILS`. -/
def flip_coin (blockhash gameId : String) : CoinSide :=
  let seed := blockhash ++ gameId
  let hashDigest := hexdigestChars (sha256 (strBytes seed))
  let firstByte := parseHexNat (hashDigest.take 2)
  if firstByte % 2 = 0 then .HEADS else .TAILS

/-- Modelled from the spec (reference definition for the refinement
claim): take the first byte of the SHA-256 digest of the concatenated
seed and return side A (`HEADS`) when it is even, side B (`TAILS`) when
it is odd. -/
def referenceFlip (blockhash gameId : String) : CoinSide :=
  match sha256 (strBytes (blockhash ++ gameId)) with
  | b :: _ => if b % 2 = 0 then .HEADS else .TAILS
  | [] => .HEADS

/-- The game fields read by `verify_game_result`.  The Python record
carries more fields; only these are consulted. -/
structure Game where
  gameId : String
  blockhash : Option String
  result : Option CoinSide
  deriving Repr, DecidableEq

/-- `verify_game_result` (coinflip.py): `False` when `blockhash` or
`result` is missing (Python truthiness also rejects an empty blockhash
string), otherwise re-derive the flip and compare. -/
def verify_game_result (game : Game) : Bool :=
  match game.blockhash, game.result with
  | some bh, some r =>
      if bh = "" then false
      else flip_coin bh game.gameId == r
  | _, _ => false

/-- The side a tampering adversary would substitute. -/
def oppositeSide : CoinSide → CoinSide
  | .HEADS => .TAILS
  | .TAILS => .HEADS

/-! ## Fee configuration (src/backend/token_config.py) -/

def BASE_FEE_RATE : Rat := 1 / 50

def MAX_COMBINED_DISCOUNT : Rat := 2 / 5

/-- `calculate_combined_discount` (token_config.py): volume and token
discounts stack additively, capped at 40%. -/
def calculate_combined_discount (volumeDiscount tokenDiscount : Rat) : Rat :=
  min (volumeDiscount + tokenDiscount) MAX_COMBINED_DISCOUNT

/-- The winner fee-rate computation of `play_pvp_game_with_escrows`
(coinflip.py, step 3): start from the winner's volume-tier fee rate; when
the token program is enabled and the winner holds a token tier other than
`Normie`, recompute from the base rate with the combined (volume + token)
discount. -/
def effectiveWinnerFeeRate (tokenEnabled : Bool) (tokenTier : String)
    (tierFeeRate tokenDiscount : Rat) : Rat :=
  if tokenEnabled && !(tokenTier == "Normie") then
    let volumeDiscount := 1 - tierFeeRate / BASE_FEE_RATE
    let combinedDiscount :=
      calculate_combined_discount volumeDiscount tokenDiscount
    BASE_FEE_RATE * (1 - combinedDiscount)
  else tierFeeRate

/-- `payout_per_escrow = amount * (1 - winner_fee_rate)` (coinflip.py). -/
def payout_per_escrow (amount winnerFeeRate : Rat) : Rat :=
  amount * (1 - winnerFeeRate)

/-- `total_payout = payout_per_escrow * 2` (coinflip.py). -/
def total_payout (amount winnerFeeRate : Rat) : Rat :=
  payout_per_escrow amount winnerFeeRate * 2

/-- `fee_per_escrow = amount * winner_fee_rate` (coinflip.py). -/
def fee_per_escrow (amount winnerFeeRate : Rat) : Rat :=
  amount * winnerFeeRate

/-- `calculate_referral_commission` (tiers.py): the referrer-tier
commission rate applied to the game-fee portion. -/
def calculate_referral_commission (feeAmount commissionRate : Rat) : Rat :=
  feeAmount * commissionRate

/-! ## Transfer primitive (src/backend/game/solana_ops.py)

`transfer_sol` guards `amount_sol <= 0` before any transaction is built,
signed or submitted; otherwise it tries up to three attempts, each one
building and submitting a transaction.  The pair's second component
counts submitted transactions. -/

def transfer_sol (amountSol : Rat) (ok1 ok2 ok3 : Bool) :
    Except String String × Nat :=
  if amountSol ≤ 0 then (.error "Invalid amount", 0)
  else if ok1 then (.ok "sig", 1)
  else if ok2 then (.ok "sig", 2)
  else if ok3 then (.ok "sig", 3)
  else (.error "Transfer failed after 3 attempts", 3)

/-! ## Escrow settlement (src/backend/game/coinflip.py and escrow.py) -/

def RENT_EXEMPT_SOL : Rat := 890880 / 1000000000

inductive GameStatus where
  | IN_PROGRESS
  | COMPLETED
  | CANCELLED
  deriving Repr, DecidableEq

/-- Which on-chain transfers of a settlement the chain accepts. -/
structure TransferPlan where
  winnerPayoutOk : Bool
  loserPayoutOk : Bool
  commissionOk : Bool
  sweepWinnerOk : Bool
  sweepLoserOk : Bool
  deriving Repr, DecidableEq

/-- Balances touched by one settlement: the two wager escrows, the
winner's wallet, the referrer's escrow and the treasury. -/
structure PvpWorld where
  winnerEscrow : Rat
  loserEscrow : Rat
  winnerWallet : Rat
  referrerEscrow : Rat
  treasury : Rat
  deriving Repr, DecidableEq

/-- Whether a `transfer_sol` call goes through: the amount guard
(`amount_sol <= 0` raises) plus the chain's acceptance. -/
def transferOk (amount : Rat) (ok : Bool) : Bool :=
  decide (0 < amount) && ok

/-- Steps 4–6 of `play_pvp_game_with_escrows` (coinflip.py) over the
settlement balances: pay `payout_per_escrow` to the winner from each
escrow (a failure raises, the outer handler marks the game `CANCELLED`);
then, when the winner was referred, transfer the referral commission from
the loser's escrow inside a `try/except` that swallows failure and zeroes
the recorded commission; then sweep each escrow's remaining balance above
the rent-exempt floor to the treasury (`collect_fees_from_escrow`: no
transfer when the balance is at or below the floor; a transfer failure
raises and cancels).  Returns the final status, the balances, and the
recorded `referral_commission_amount`. -/
def play_pvp_settle (amount winnerFeeRate : Rat) (winnerReferred : Bool)
    (commissionRate : Rat) (w0 : PvpWorld) (plan : TransferPlan) :
    GameStatus × PvpWorld × Rat :=
  let payout := payout_per_escrow amount winnerFeeRate
  if transferOk payout plan.winnerPayoutOk = false then
    (.CANCELLED, w0, 0)
  else
    let w1 := { w0 with winnerEscrow := w0.winnerEscrow - payout,
                        winnerWallet := w0.winnerWallet + payout }
    if transferOk payout plan.loserPayoutOk = false then
      (.CANCELLED, w1, 0)
    else
      let w2 := { w1 with loserEscrow := w1.loserEscrow - payout,
                          winnerWallet := w1.winnerWallet + payout }
      let commission :=
        calculate_referral_commission (fee_per_escrow amount winnerFeeRate * 2)
          commissionRate
      let commissionSent :=
        winnerReferred && transferOk commission plan.commissionOk
      let w3 :=
        if commissionSent then
          { w2 with loserEscrow := w2.loserEscrow - commission,
                    referrerEscrow := w2.referrerEscrow + commission }
        else w2
      let commissionPaid := if commissionSent then commission else 0
      if RENT_EXEMPT_SOL < w3.winnerEscrow then
        if transferOk (w3.winnerEscrow - RENT_EXEMPT_SOL)
            plan.sweepWinnerOk = false then
          (.CANCELLED, w3, commissionPaid)
        else
          let w4 := { w3 with
            winnerEscrow := RENT_EXEMPT_SOL,
            treasury := w3.treasury + (w3.winnerEscrow - RENT_EXEMPT_SOL) }
          if RENT_EXEMPT_SOL < w4.loserEscrow then
            if transferOk (w4.loserEscrow - RENT_EXEMPT_SOL)
                plan.sweepLoserOk = false then
              (.CANCELLED, w4, commissionPaid)
            else
              (.COMPLETED,
                { w4 with
                  loserEscrow := RENT_EXEMPT_SOL,
                  treasury := w4.treasury +
                    (w4.loserEscrow - RENT_EXEMPT_SOL) },
                commissionPaid)
          else (.COMPLETED, w4, commissionPaid)
      else
        if RENT_EXEMPT_SOL < w3.loserEscrow then
          if transferOk (w3.loserEscrow - RENT_EXEMPT_SOL)
              plan.sweepLoserOk = false then
            (.CANCELLED, w3, commissionPaid)
          else
            (.COMPLETED,
              { w3 with
                loserEscrow := RENT_EXEMPT_SOL,
                treasury := w3.treasury +
                  (w3.loserEscrow - RENT_EXEMPT_SOL) },
              commissionPaid)
        else (.COMPLETED, w3, commissionPaid)

/-! ## RPC circuit breaker (src/backend/rpc_manager.py)

Endpoint state as in `RPCEndpoint.__init__`; wall-clock time is a `Nat`
of seconds. -/

inductive CircuitState where
  | CLOSED
  | OPEN
  | HALF_OPEN
  deriving Repr, DecidableEq

structure RPCEndpoint where
  failureCount : Nat
  successCount : Nat
  circuitState : CircuitState
  lastFailureTime : Option Nat
  deriving Repr, DecidableEq

def failureThreshold : Nat := 3

def successThreshold : Nat := 2

def timeoutSeconds : Nat := 60

/-- `RPCEndpoint.record_success`: bump the success counter, zero the
failure counter, and close the circuit from half-open once the success
counter reaches the threshold (resetting it). -/
def record_success (e : RPCEndpoint) : RPCEndpoint :=
  let sc := e.successCount + 1
  if e.circuitState = CircuitState.HALF_OPEN ∧ successThreshold ≤ sc then
    { e with successCount := 0, failureCount := 0,
             circuitState := .CLOSED }
  else
    { e with successCount := sc, failureCount := 0 }

/-- `RPCEndpoint.record_failure`: bump the failure counter, stamp the
failure time, and open the circuit once the counter reaches the
threshold. -/
def record_failure (now : Nat) (e : RPCEndpoint) : RPCEndpoint :=
  let fc := e.failureCount + 1
  { e with failureCount := fc, lastFailureTime := some now,
           circuitState :=
             if failureThreshold ≤ fc then .OPEN else e.circuitState }

/-- `RPCEndpoint.should_attempt`: closed and half-open circuits are always
attempted; an open circuit flips to half-open (success counter reset)
once the cooldown since the last failure has elapsed, and is skipped
otherwise. -/
def should_attempt (now : Nat) (e : RPCEndpoint) : Bool × RPCEndpoint :=
  match e.circuitState with
  | .CLOSED => (true, e)
  | .HALF_OPEN => (true, e)
  | .OPEN =>
      match e.lastFailureTime with
      | some t =>
          if t + timeoutSeconds ≤ now then
            (true, { e with circuitState := .HALF_OPEN, successCount := 0 })
          else (false, e)
      | none => (false, e)

/-- `RPCManager.call_with_failover`: walk the endpoints in priority
order, skipping those whose breaker refuses the attempt, recording the
outcome (`oracle` position by position) on the attempted endpoint, and
stopping at the first success; `false` when every endpoint is skipped or
fails. -/
def call_with_failover (now : Nat) (oracle : Nat → Bool) :
    List RPCEndpoint → Nat → Bool × List RPCEndpoint
  | [], _ => (false, [])
  | e :: rest, idx =>
      let r := should_attempt now e
      if r.1 then
        if oracle idx then (true, record_success r.2 :: rest)
        else
          let e2 := record_failure now r.2
          let tailResult := call_with_failover now oracle rest (idx + 1)
          (tailResult.1, e2 :: tailResult.2)
      else
        let tailResult := call_with_failover now oracle rest (idx + 1)
        (tailResult.1, r.2 :: tailResult.2)

end Coinflip

open Coinflip

/-- C1: `atomic_accept_wager` returns `true` iff a wager with the given id
exists with status `open` at the moment of the call, in which case it writes
status `accepting` plus the acceptor id to exactly the matched rows in the
same transaction; otherwise it returns `false` and leaves the store
unchanged. -/
theorem atomic_accept_wager_spec (table : List WagerRow) (wid : String)
    (aid : Int) :
    ((atomic_accept_wager table wid aid).1 = true ↔
      ∃ r ∈ table, r.wagerId = wid ∧ r.status = "open") ∧
    ((atomic_accept_wager table wid aid).1 = true →
      (atomic_accept_wager table wid aid).2 = table.map fun r =>
        if acceptMatches wid r then acceptUpdate aid r else r) ∧
    ((atomic_accept_wager table wid aid).1 = false →
      (atomic_accept_wager table wid aid).2 = table) := by
  unfold atomic_accept_wager
  by_cases h : table.countP (acceptMatches wid) = 0
  · simp only [h, if_pos rfl]
    refine ⟨?_, ?_, ?_⟩
    · constructor
      · intro hfalse; cases hfalse
      · rintro ⟨r, hr, hid, hopen⟩
        exfalso
        rw [List.countP_eq_zero] at h
        have := h r hr
        simp [acceptMatches, hid, hopen] at this
    · intro hfalse; cases hfalse
    · intro _; rfl
  · simp only [h, if_neg h]
    refine ⟨?_, ?_, ?_⟩
    · constructor
      · intro _
        have hpos : 0 < table.countP (acceptMatches wid) := Nat.pos_of_ne_zero h
        rw [List.countP_pos_iff] at hpos
        obtain ⟨r, hr, hp⟩ := hpos
        refine ⟨r, hr, ?_, ?_⟩
        · simpa [acceptMatches] using (by simp [acceptMatches] at hp; exact hp.1)
        · simp [acceptMatches] at hp; exact hp.2
      · intro _; rfl
    · intro _; rfl
    · intro hcontra; cases hcontra

/-- C1 witness: a store holding one open wager is accepted, mutated as
specified, and a store holding none is left untouched. -/
theorem atomic_accept_wager_spec_witness :
    ((atomic_accept_wager
        [⟨"w1", "open", none, 1, "CW", none, none⟩] "w1" 7).1 = true ↔
      ∃ r ∈ [(⟨"w1", "open", none, 1, "CW", none, none⟩ : WagerRow)],
        r.wagerId = "w1" ∧ r.status = "open") ∧
    ((atomic_accept_wager
        [⟨"w1", "open", none, 1, "CW", none, none⟩] "w1" 7).1 = true →
      (atomic_accept_wager
        [⟨"w1", "open", none, 1, "CW", none, none⟩] "w1" 7).2 =
        [(⟨"w1", "open", none, 1, "CW", none, none⟩ : WagerRow)].map fun r =>
          if acceptMatches "w1" r then acceptUpdate 7 r else r) ∧
    ((atomic_accept_wager
        [⟨"w1", "open", none, 1, "CW", none, none⟩] "w1" 7).1 = false →
      (atomic_accept_wager
        [⟨"w1", "open", none, 1, "CW", none, none⟩] "w1" 7).2 =
        [⟨"w1", "open", none, 1, "CW", none, none⟩]) :=
  atomic_accept_wager_spec [⟨"w1", "open", none, 1, "CW", none, none⟩] "w1" 7

/-- Rewriting senders does not change whether an instruction matches the
escrow-deposit check (the check never reads the `source` field). -/
theorem escrowTransferMatches_rewriteSource (f : String → String)
    (recip : String) (amt tol : Rat) (ix : Instruction) :
    escrowTransferMatches recip amt tol (rewriteSource f ix) =
      escrowTransferMatches recip amt tol ix := by
  cases ix <;> rfl

/-- Mapping the sender-rewrite over an instruction list does not change the
result of the escrow-deposit scan. -/
theorem any_escrowTransferMatches_rewrite (f : String → String)
    (recip : String) (amt tol : Rat) (l : List Instruction) :
    (l.map (rewriteSource f)).any (escrowTransferMatches recip amt tol) =
      l.any (escrowTransferMatches recip amt tol) := by
  induction l with
  | nil => rfl
  | cons ix tl ih =>
      simp only [List.map_cons, List.any_cons, ih,
        escrowTransferMatches_rewriteSource]

/-- C8: the deposit verifier returns `true` iff the transaction is found,
succeeded on-chain, and contains a transfer instruction whose destination
equals the expected recipient with an amount within the tolerance of the
expected amount; the result never depends on which wallet sent the funds
(rewriting every sender on the chain leaves the verdict unchanged). -/
theorem verify_deposit_to_escrow_spec (chain : Chain) (sig recip : String)
    (amt tol : Rat) :
    (verify_deposit_to_escrow chain sig recip amt tol = true ↔
      ∃ tx, chain sig = some tx ∧ tx.metaErr = false ∧
        ∃ info, Instruction.transferIx info ∈ tx.instructions ∧
          info.destination = recip ∧
          |solOfLamports info.lamports - amt| ≤ tol) ∧
    (∀ f : String → String,
      verify_deposit_to_escrow (rewriteChainSenders f chain) sig recip amt tol =
        verify_deposit_to_escrow chain sig recip amt tol) := by
  constructor
  · constructor
    · intro h
      unfold verify_deposit_to_escrow at h
      cases hc : chain sig with
      | none => rw [hc] at h; cases h
      | some tx =>
          rw [hc] at h
          dsimp only at h
          by_cases htm : tx.metaErr = true
          · rw [if_pos htm] at h; cases h
          · rw [if_neg htm] at h
            rw [List.any_eq_true] at h
            obtain ⟨ix, hix, hm⟩ := h
            cases ix with
            | transferIx info =>
                simp only [escrowTransferMatches, Bool.and_eq_true, beq_iff_eq,
                  decide_eq_true_eq] at hm
                exact ⟨tx, rfl, Bool.eq_false_iff.mpr htm, info, hix, hm.1, hm.2⟩
            | otherIx => simp [escrowTransferMatches] at hm
    · rintro ⟨tx, htx, htm, info, hix, hd, ha⟩
      unfold verify_deposit_to_escrow
      rw [htx]
      dsimp only
      rw [htm]
      simp only [Bool.false_eq_true, if_false, List.any_eq_true]
      exact ⟨.transferIx info, hix, by
        simp [escrowTransferMatches, hd, ha]⟩
  · intro f
    unfold verify_deposit_to_escrow rewriteChainSenders
    cases hc : chain sig with
    | none => rfl
    | some tx =>
        dsimp only [Option.map_some']
        by_cases htm : tx.metaErr = true
        · rw [if_pos htm, if_pos htm]
        · rw [if_neg htm, if_neg htm]
          exact any_escrowTransferMatches_rewrite f recip amt tol
            tx.instructions

/-- Replacing a wager row never touches the used-signature table. -/
theorem usedSignatures_save_wager (st : ApiState) (w : WagerRow) :
    (save_wager st w).usedSignatures = st.usedSignatures := by
  unfold save_wager
  split <;> rfl

/-- The signature ledger is read through `usedSignatures` only. -/
theorem signature_already_used_save_wager (st : ApiState) (w : WagerRow)
    (sig : String) :
    signature_already_used (save_wager st w) sig =
      signature_already_used st sig := by
  unfold signature_already_used
  rw [usedSignatures_save_wager]

/-- After `save_used_signature`, the recorded signature tests as used. -/
theorem signature_already_used_save_used (st : ApiState) (u : UsedSig) :
    signature_already_used (save_used_signature st u) u.signature = true := by
  unfold save_used_signature signature_already_used
  split
  case isTrue h => exact h
  case isFalse h => simp

/-- A successful `verify_wager_deposit` leaves the consumed signature
recorded in the used-signature table. -/
theorem sig_used_after_deposit_success (chain : Chain) (st : ApiState)
    (wid sig : String)
    (h1 : (verify_wager_deposit chain st wid sig).1 = none) :
    signature_already_used (verify_wager_deposit chain st wid sig).2 sig =
      true := by
  unfold verify_wager_deposit at h1 ⊢
  cases hw : get_wager st wid with
  | none => rw [hw] at h1; simp at h1
  | some w =>
      rw [hw] at h1
      dsimp only at h1 ⊢
      by_cases hs : w.status ≠ "pending_deposit"
      · rw [if_pos hs] at h1; cases h1
      · rw [if_neg hs] at h1 ⊢
        by_cases hu : signature_already_used st sig = true
        · rw [if_pos hu] at h1; cases h1
        · rw [if_neg hu] at h1 ⊢
          by_cases hv :
              (match w.creatorEscrowAddress with
                | some escrow =>
                    verify_deposit_to_escrow chain sig escrow w.amount
                      (1 / 1000)
                | none => false) = false
          · rw [if_pos hv] at h1; cases h1
          · rw [if_neg hv] at h1 ⊢
            dsimp only
            rw [signature_already_used_save_wager]
            exact signature_already_used_save_used st
              ⟨sig, w.creatorWallet, "wager_deposit_" ++ wid⟩

/-- Against a state whose ledger already holds the signature, the
confirm-deposit endpoint always fails without mutating anything, and the
failure is the replay error exactly when the target wager exists and still
awaits its deposit. -/
theorem confirm_deposit_vs_used_sig (chain : Chain) (st : ApiState)
    (wid sig : String)
    (hused : signature_already_used st sig = true) :
    ((verify_wager_deposit chain st wid sig).1 ≠ none) ∧
    ((verify_wager_deposit chain st wid sig).2 = st) ∧
    (∀ w, get_wager st wid = some w → w.status = "pending_deposit" →
      (verify_wager_deposit chain st wid sig).1 =
        some DepositError.signatureAlreadyUsed) := by
  unfold verify_wager_deposit
  cases hw : get_wager st wid with
  | none =>
      refine ⟨by simp, rfl, ?_⟩
      intro w hcontra
      cases hcontra
  | some w =>
      dsimp only
      by_cases hs : w.status ≠ "pending_deposit"
      · rw [if_pos hs]
        refine ⟨by simp, rfl, ?_⟩
        intro w' hw' hpend
        injection hw' with hw'
        subst hw'
        exact absurd hpend hs
      · rw [if_neg hs, if_pos hused]
        exact ⟨by simp, rfl, fun _ _ _ => rfl⟩

/-- C2 counterexample: the claim promises that the second of two sequential
confirm-deposit calls with the same signature always fails with the replay
error, but when the second call targets the wager the first call already
activated, the code fails earlier with the wrong-status error instead. -/
theorem confirm_deposit_replay_error_counterexample :
    (verify_wager_deposit exChainC2 exStateC2 "w1" "SIG1").1 = none ∧
    (verify_wager_deposit exChainC2
        (verify_wager_deposit exChainC2 exStateC2 "w1" "SIG1").2
        "w1" "SIG1").1 = some DepositError.wagerNotAwaitingDeposit ∧
    some DepositError.wagerNotAwaitingDeposit ≠
      some DepositError.signatureAlreadyUsed := by
  refine ⟨?_, ?_, by decide⟩ <;>
    simp [verify_wager_deposit, get_wager, exStateC2, signature_already_used,
      save_used_signature, save_wager, verify_deposit_to_escrow, exChainC2,
      escrowTransferMatches, solOfLamports, LAMPORTS_PER_SOL]

/-- C2 (amended): two sequential confirm-deposit calls with the same
transaction signature — even against two different wagers — succeed at
most once; the second call fails before mutating any state, with the
replay error whenever the target wager exists and still awaits its
deposit (and with a not-found or wrong-status error otherwise), because
once a signature is recorded consumed every verification attempt against
it fails deterministically. -/
theorem confirm_deposit_second_call_fails (chain : Chain) (st : ApiState)
    (wid1 wid2 sig : String)
    (h1 : (verify_wager_deposit chain st wid1 sig).1 = none) :
    ((verify_wager_deposit chain
        (verify_wager_deposit chain st wid1 sig).2 wid2 sig).1 ≠ none) ∧
    ((verify_wager_deposit chain
        (verify_wager_deposit chain st wid1 sig).2 wid2 sig).2 =
      (verify_wager_deposit chain st wid1 sig).2) ∧
    (∀ w, get_wager (verify_wager_deposit chain st wid1 sig).2 wid2 = some w →
      w.status = "pending_deposit" →
      (verify_wager_deposit chain
        (verify_wager_deposit chain st wid1 sig).2 wid2 sig).1 =
        some DepositError.signatureAlreadyUsed) :=
  confirm_deposit_vs_used_sig chain
    (verify_wager_deposit chain st wid1 sig).2 wid2 sig
    (sig_used_after_deposit_success chain st wid1 sig h1)

/-- C2 witness: the amended theorem applied to the concrete one-wager
store and chain, with the first call's success discharged by evaluation. -/
theorem confirm_deposit_second_call_fails_witness :
    ((verify_wager_deposit exChainC2
        (verify_wager_deposit exChainC2 exStateC2 "w1" "SIG1").2
        "w1" "SIG1").1 ≠ none) ∧
    ((verify_wager_deposit exChainC2
        (verify_wager_deposit exChainC2 exStateC2 "w1" "SIG1").2
        "w1" "SIG1").2 =
      (verify_wager_deposit exChainC2 exStateC2 "w1" "SIG1").2) ∧
    (∀ w, get_wager
        (verify_wager_deposit exChainC2 exStateC2 "w1" "SIG1").2 "w1" =
          some w →
      w.status = "pending_deposit" →
      (verify_wager_deposit exChainC2
        (verify_wager_deposit exChainC2 exStateC2 "w1" "SIG1").2
        "w1" "SIG1").1 = some DepositError.signatureAlreadyUsed) :=
  confirm_deposit_second_call_fails exChainC2 exStateC2 "w1" "w1" "SIG1"
    (by simp [verify_wager_deposit, get_wager, exStateC2,
      signature_already_used, verify_deposit_to_escrow, exChainC2,
      escrowTransferMatches, solOfLamports, LAMPORTS_PER_SOL])

/-- Hex characters round-trip on values below 16. -/
theorem hexVal_hexChar : ∀ n < 16, hexVal (hexChar n) = n := by decide

/-- The digest is a nonempty list whose head is its first byte. -/
theorem sha256_cons (msg : List Nat) :
    sha256 msg = (sha256 msg).headI :: (sha256 msg).tail := rfl

/-- The first digest byte is a byte. -/
theorem sha256_headI_lt (msg : List Nat) : (sha256 msg).headI < 256 := by
  have h : (sha256 msg).headI = ((sha256State msg).a >>> 24) % 256 := rfl
  rw [h]
  exact Nat.mod_lt _ (by norm_num)

/-- The first two hexdigest characters are the hex expansion of the first
digest byte. -/
theorem hexdigest_take_two (b : Nat) (rest : List Nat) :
    (hexdigestChars (b :: rest)).take 2 =
      [hexChar (b / 16), hexChar (b % 16)] := by
  simp [hexdigestChars, byteHexChars]

/-- `int(hexdigest[:2], 16)` recovers the first digest byte. -/
theorem parseHexNat_pair (b : Nat) (hb : b < 256) :
    parseHexNat [hexChar (b / 16), hexChar (b % 16)] = b := by
  have h1 : b / 16 < 16 := by omega
  have h2 : b % 16 < 16 := Nat.mod_lt _ (by norm_num)
  simp [parseHexNat, hexVal_hexChar _ h1, hexVal_hexChar _ h2]
  omega

/-- C3: `flip_coin` agrees everywhere with the reference definition —
SHA-256 over the concatenated seed, first digest byte even means `HEADS`
and odd means `TAILS` — and, being a pure function, identical inputs give
the identical result. -/
theorem flip_coin_matches_reference : ∀ bh g : String,
    flip_coin bh g = referenceFlip bh g ∧ flip_coin bh g = flip_coin bh g := by
  intro bh g
  refine ⟨?_, rfl⟩
  unfold flip_coin referenceFlip
  rw [sha256_cons (strBytes (bh ++ g))]
  dsimp only
  conv_lhs => rw [sha256_cons (strBytes (bh ++ g))]
  rw [hexdigest_take_two, parseHexNat_pair _ (sha256_headI_lt _)]

/-- C9: the public verification returns `true` on every genuine outcome
record (blockhash recorded, result as flipped) and `false` once the
result field is tampered to the opposite side. -/
theorem verify_game_result_spec (bh gid : String) (hbh : bh ≠ "") :
    verify_game_result ⟨gid, some bh, some (flip_coin bh gid)⟩ = true ∧
    verify_game_result
      ⟨gid, some bh, some (oppositeSide (flip_coin bh gid))⟩ = false := by
  unfold verify_game_result
  constructor
  · simp [hbh]
  · simp only [if_neg hbh]
    cases h : flip_coin bh gid <;> simp [oppositeSide, h]

/-- C9 witness: a concrete settled record verifies and its tampered twin
does not. -/
theorem verify_game_result_spec_witness :
    verify_game_result ⟨"game_abc", some "BLOCKHASH",
      some (flip_coin "BLOCKHASH" "game_abc")⟩ = true ∧
    verify_game_result ⟨"game_abc", some "BLOCKHASH",
      some (oppositeSide (flip_coin "BLOCKHASH" "game_abc"))⟩ = false :=
  verify_game_result_spec "BLOCKHASH" "game_abc" (by decide)

/-- C10: the transfer primitive rejects a non-positive amount before any
transaction is submitted (zero submissions), so an operation that did
submit a transfer (payout, sweep, refund, commission — all of which go
through `transfer_sol`) necessarily transferred a positive amount. -/
theorem transfer_sol_guard (amountSol : Rat) (ok1 ok2 ok3 : Bool) :
    (amountSol ≤ 0 →
      transfer_sol amountSol ok1 ok2 ok3 =
        (Except.error "Invalid amount", 0)) ∧
    (0 < (transfer_sol amountSol ok1 ok2 ok3).2 → 0 < amountSol) := by
  constructor
  · intro h
    unfold transfer_sol
    rw [if_pos h]
  · intro h
    by_contra hneg
    push_neg at hneg
    unfold transfer_sol at h
    rw [if_pos hneg] at h
    simp at h

/-- C10 witness: a −1 SOL request errors out with zero submissions. -/
theorem transfer_sol_guard_witness :
    transfer_sol (-1) true true true = (Except.error "Invalid amount", 0) :=
  (transfer_sol_guard (-1) true true true).1 (by norm_num)

/-- C5: the winner's effective fee rate is the base rate discounted by the
volume-tier discount plus the token-holding bonus (zero when the token
program is off or the winner is a `Normie`), the combined discount capped
at 40%; the payout per escrow is `stake * (1 - effectiveFeeRate)` and the
total payout is twice that.  The volume-tier hypothesis says the tier rate
itself discounts the base rate by at most the 40% cap, true of every
configured tier (1.5%–2.0%). -/
theorem effective_fee_rate_spec (tokenEnabled : Bool) (tokenTier : String)
    (tierFeeRate tokenDiscount amount : Rat)
    (hfr : 3 / 250 ≤ tierFeeRate) :
    (effectiveWinnerFeeRate tokenEnabled tokenTier tierFeeRate tokenDiscount
      = BASE_FEE_RATE * (1 - calculate_combined_discount
          (1 - tierFeeRate / BASE_FEE_RATE)
          (if tokenEnabled && !(tokenTier == "Normie") then tokenDiscount
           else 0))) ∧
    (payout_per_escrow amount
        (effectiveWinnerFeeRate tokenEnabled tokenTier tierFeeRate
          tokenDiscount) =
      amount * (1 - effectiveWinnerFeeRate tokenEnabled tokenTier
          tierFeeRate tokenDiscount)) ∧
    (total_payout amount
        (effectiveWinnerFeeRate tokenEnabled tokenTier tierFeeRate
          tokenDiscount) =
      2 * payout_per_escrow amount
        (effectiveWinnerFeeRate tokenEnabled tokenTier tierFeeRate
          tokenDiscount)) := by
  refine ⟨?_, rfl, by unfold total_payout; ring⟩
  unfold effectiveWinnerFeeRate
  by_cases hc : (tokenEnabled && !(tokenTier == "Normie")) = true
  · rw [if_pos hc, if_pos hc]
  · rw [if_neg hc, if_neg hc]
    unfold calculate_combined_discount MAX_COMBINED_DISCOUNT BASE_FEE_RATE
    rw [add_zero]
    have hdiv : tierFeeRate / ((1 : Rat) / 50) = tierFeeRate * 50 := by
      field_simp
    rw [hdiv]
    have hmin : min (1 - tierFeeRate * 50) ((2 : Rat) / 5) =
        1 - tierFeeRate * 50 := by
      apply min_eq_left
      linarith
    rw [hmin]
    ring

/-- C5 witness: a Bronze-tier winner (1.9% rate) holding the `Degen`
token tier (3% bonus) on a 1 SOL stake. -/
theorem effective_fee_rate_spec_witness :
    (effectiveWinnerFeeRate true "Degen" (19 / 1000) (3 / 100)
      = BASE_FEE_RATE * (1 - calculate_combined_discount
          (1 - (19 / 1000 : Rat) / BASE_FEE_RATE)
          (if true && !("Degen" == "Normie") then (3 / 100 : Rat)
           else 0))) ∧
    (payout_per_escrow 1
        (effectiveWinnerFeeRate true "Degen" (19 / 1000) (3 / 100)) =
      1 * (1 - effectiveWinnerFeeRate true "Degen" (19 / 1000) (3 / 100))) ∧
    (total_payout 1
        (effectiveWinnerFeeRate true "Degen" (19 / 1000) (3 / 100)) =
      2 * payout_per_escrow 1
        (effectiveWinnerFeeRate true "Degen" (19 / 1000) (3 / 100))) :=
  effective_fee_rate_spec true "Degen" (19 / 1000) (3 / 100) 1 (by norm_num)

/-- C6 counterexample: drive a fresh endpoint to Open with three failures,
let the cooldown elapse (Half-Open), record one success and then one
failure — the claim demands the circuit return to Open on any failure
while half-open, but the success reset the failure counter, so the
circuit stays Half-Open. -/
theorem circuit_halfopen_failure_counterexample :
    (record_failure 60 (record_success
      ((should_attempt 60 (record_failure 0 (record_failure 0
        (record_failure 0 ⟨0, 0, .CLOSED, none⟩)))).2))).circuitState =
      CircuitState.HALF_OPEN ∧
    CircuitState.HALF_OPEN ≠ CircuitState.OPEN := by
  refine ⟨by decide, by decide⟩

/-- C6 (amended): three consecutive failures open an endpoint's circuit
from any state; while open and inside the 60 s cooldown it is skipped
(by `should_attempt` and by `call_with_failover`, both leaving it
untouched); once the cooldown elapses the breaker turns half-open with
the success counter reset and allows a trial; a trial failure while the
failure counter is still at the threshold reopens the circuit at once
(stamping a fresh cooldown, so at most one failing trial per window);
two successes while half-open close it; but a failure while half-open
reopens it only when the failure counter — which any success resets —
reaches the threshold again, so a failure straight after a half-open
success leaves the circuit half-open rather than open. -/
theorem circuit_breaker_amended (e eo eh : RPCEndpoint)
    (oracle : Nat → Bool) (t now1 now2 now3 n : Nat)
    (ho : eo.circuitState = .OPEN) (hot : eo.lastFailureTime = some t)
    (h1 : now1 < t + timeoutSeconds) (h2 : t + timeoutSeconds ≤ now2)
    (h3 : now3 < now2 + timeoutSeconds)
    (hh : eh.circuitState = .HALF_OPEN)
    (hhf : failureThreshold ≤ eh.failureCount)
    (hhs : eh.successCount = 0) :
    ((record_failure n (record_failure n (record_failure n e))).circuitState
        = .OPEN) ∧
    (should_attempt now1 eo = (false, eo)) ∧
    (call_with_failover now1 oracle [eo] 0 = (false, [eo])) ∧
    (should_attempt now2 eo =
      (true, { eo with circuitState := .HALF_OPEN, successCount := 0 })) ∧
    ((record_failure now2 eh).circuitState = .OPEN) ∧
    ((record_failure now2 eh).lastFailureTime = some now2) ∧
    (should_attempt now3 (record_failure now2 eh) =
      (false, record_failure now2 eh)) ∧
    ((record_success (record_success eh)).circuitState = .CLOSED) ∧
    ((record_failure now2 (record_success eh)).circuitState =
      .HALF_OPEN) := by
  have hskip : should_attempt now1 eo = (false, eo) := by
    unfold should_attempt
    rw [ho]
    dsimp only
    rw [hot]
    dsimp only
    rw [if_neg (by omega)]
  have hreopen : (record_failure now2 eh).circuitState = .OPEN := by
    simp only [record_failure]
    rw [if_pos (by unfold failureThreshold at hhf ⊢; omega)]
  refine ⟨?_, hskip, ?_, ?_, hreopen, ?_, ?_, ?_, ?_⟩
  · simp only [record_failure]
    rw [if_pos (by unfold failureThreshold; omega)]
  · unfold call_with_failover
    rw [hskip]
    dsimp only
    rfl
  · unfold should_attempt
    rw [ho]
    dsimp only
    rw [hot]
    dsimp only
    rw [if_pos (by omega)]
  · simp [record_failure]
  · unfold should_attempt
    rw [hreopen]
    dsimp only
    have hlf : (record_failure now2 eh).lastFailureTime = some now2 := by
      simp [record_failure]
    rw [hlf]
    dsimp only
    rw [if_neg (by omega)]
  · have hrs : record_success eh =
        { eh with successCount := 1, failureCount := 0 } := by
      simp only [record_success]
      rw [if_neg ?_, hhs]
      rintro ⟨-, hb⟩
      rw [hhs] at hb
      unfold successThreshold at hb
      omega
    rw [hrs]
    simp only [record_success]
    rw [if_pos ⟨by simp [hh], by unfold successThreshold; omega⟩]
  · have hrs2 : record_success eh =
        { eh with successCount := 1, failureCount := 0 } := by
      simp only [record_success]
      rw [if_neg ?_, hhs]
      rintro ⟨-, hb⟩
      rw [hhs] at hb
      unfold successThreshold at hb
      omega
    rw [hrs2]
    simp only [record_failure]
    rw [if_neg (by unfold failureThreshold; simp)]
    simp [hh]

/-- C6 witness: the amended breaker contract at a fresh endpoint, an open
endpoint that failed at second 0, and a half-open endpoint at the
threshold. -/
theorem circuit_breaker_amended_witness :
    ((record_failure 5 (record_failure 5 (record_failure 5
        (⟨0, 0, .CLOSED, none⟩ : RPCEndpoint)))).circuitState =
      CircuitState.OPEN) ∧
    (should_attempt 30 ⟨3, 0, .OPEN, some 0⟩ =
      (false, ⟨3, 0, .OPEN, some 0⟩)) ∧
    (call_with_failover 30 (fun _ => true) [⟨3, 0, .OPEN, some 0⟩] 0 =
      (false, [⟨3, 0, .OPEN, some 0⟩])) ∧
    (should_attempt 60 ⟨3, 0, .OPEN, some 0⟩ =
      (true, { (⟨3, 0, .OPEN, some 0⟩ : RPCEndpoint) with
        circuitState := .HALF_OPEN, successCount := 0 })) ∧
    ((record_failure 60 ⟨3, 0, .HALF_OPEN, some 0⟩).circuitState =
      CircuitState.OPEN) ∧
    ((record_failure 60 ⟨3, 0, .HALF_OPEN, some 0⟩).lastFailureTime =
      some 60) ∧
    (should_attempt 61 (record_failure 60 ⟨3, 0, .HALF_OPEN, some 0⟩) =
      (false, record_failure 60 ⟨3, 0, .HALF_OPEN, some 0⟩)) ∧
    ((record_success (record_success
        ⟨3, 0, .HALF_OPEN, some 0⟩)).circuitState =
      CircuitState.CLOSED) ∧
    ((record_failure 60 (record_success
        ⟨3, 0, .HALF_OPEN, some 0⟩)).circuitState =
      CircuitState.HALF_OPEN) :=
  circuit_breaker_amended ⟨0, 0, .CLOSED, none⟩ ⟨3, 0, .OPEN, some 0⟩
    ⟨3, 0, .HALF_OPEN, some 0⟩ (fun _ => true) 0 30 60 61 5
    (by decide) (by decide) (by decide) (by decide) (by decide)
    (by decide) (by decide) (by decide)

/-- C7 counterexample: with both winner payouts and both sweeps accepted
but the referral-commission transfer failing, the claim demands the
settlement abort, yet the code catches the commission failure and marks
the game `COMPLETED`. -/
theorem settlement_commission_failure_counterexample :
    (play_pvp_settle 1 (1 / 50) true (1 / 10) ⟨1, 1, 0, 0, 0⟩
        ⟨true, true, false, true, true⟩).1 = GameStatus.COMPLETED ∧
    (⟨true, true, false, true, true⟩ : TransferPlan).commissionOk =
      false := by
  constructor
  · norm_num [play_pvp_settle, payout_per_escrow, fee_per_escrow,
      calculate_referral_commission, transferOk, RENT_EXEMPT_SOL]
  · rfl

/-- C7 (amended): a failed winner payout from either escrow or a failed
treasury sweep aborts the settlement (the game is marked `CANCELLED`,
never `COMPLETED`); completion holds exactly when both payouts succeed
and each escrow is either already at or below the rent floor or its sweep
succeeds — independently of the referral-commission transfer, whose
failure is caught and merely recorded as a zero commission. -/
theorem settlement_abort_amended (S r cr : Rat) (referred : Bool)
    (w0 : PvpWorld) (plan : TransferPlan) :
    ((play_pvp_settle S r referred cr w0 plan).1 = GameStatus.COMPLETED ↔
      (transferOk (payout_per_escrow S r) plan.winnerPayoutOk = true ∧
       transferOk (payout_per_escrow S r) plan.loserPayoutOk = true ∧
       (w0.winnerEscrow - payout_per_escrow S r ≤ RENT_EXEMPT_SOL ∨
         plan.sweepWinnerOk = true) ∧
       (w0.loserEscrow - payout_per_escrow S r -
           (play_pvp_settle S r referred cr w0 plan).2.2 ≤ RENT_EXEMPT_SOL ∨
         plan.sweepLoserOk = true))) ∧
    ((play_pvp_settle S r referred cr w0 plan).1 ≠ GameStatus.COMPLETED →
      (play_pvp_settle S r referred cr w0 plan).1 =
        GameStatus.CANCELLED) ∧
    (plan.commissionOk = false →
      (play_pvp_settle S r referred cr w0 plan).2.2 = 0) := by
  unfold play_pvp_settle
  dsimp only
  split_ifs with h1 h2 h3 h4 h5 h6 h7 h8 h9 h10 h11 h12 h13 h14 <;>
    simp_all [transferOk] <;>
    first
      | linarith
      | (intro h; exfalso; linarith)

set_option maxHeartbeats 2000000 in
/-- C4: for a wager settled through the escrow path with per-party stake
`S` — each escrow funded with its required deposit `S`, every transfer
accepted by the chain, the fee rate in `[0,1)` and the referral rate in
`[0,1/2]` (every configured tier pays at most 10%) — the settlement
completes, money is conserved (payout + sweeps + commission + residual
escrow floors add to exactly `2*S`), each escrow ends at or below the
rent-exempt floor, and hence the total paid to the winner plus the fees
swept plus the referral commission equals `2*S` within the rent-floor
tolerance per escrow. -/
theorem settlement_conservation (S r cr : Rat) (referred : Bool)
    (hS : 0 < S) (hr0 : 0 ≤ r) (hr1 : r < 1) (hcr0 : 0 ≤ cr)
    (hcr : cr ≤ 1 / 2) :
    ((play_pvp_settle S r referred cr ⟨S, S, 0, 0, 0⟩
        ⟨true, true, true, true, true⟩).1 = GameStatus.COMPLETED) ∧
    ((play_pvp_settle S r referred cr ⟨S, S, 0, 0, 0⟩
        ⟨true, true, true, true, true⟩).2.1.winnerWallet +
      (play_pvp_settle S r referred cr ⟨S, S, 0, 0, 0⟩
        ⟨true, true, true, true, true⟩).2.1.treasury +
      (play_pvp_settle S r referred cr ⟨S, S, 0, 0, 0⟩
        ⟨true, true, true, true, true⟩).2.1.referrerEscrow +
      (play_pvp_settle S r referred cr ⟨S, S, 0, 0, 0⟩
        ⟨true, true, true, true, true⟩).2.1.winnerEscrow +
      (play_pvp_settle S r referred cr ⟨S, S, 0, 0, 0⟩
        ⟨true, true, true, true, true⟩).2.1.loserEscrow = 2 * S) ∧
    (0 ≤ (play_pvp_settle S r referred cr ⟨S, S, 0, 0, 0⟩
        ⟨true, true, true, true, true⟩).2.1.winnerEscrow ∧
      (play_pvp_settle S r referred cr ⟨S, S, 0, 0, 0⟩
        ⟨true, true, true, true, true⟩).2.1.winnerEscrow ≤
        RENT_EXEMPT_SOL) ∧
    (0 ≤ (play_pvp_settle S r referred cr ⟨S, S, 0, 0, 0⟩
        ⟨true, true, true, true, true⟩).2.1.loserEscrow ∧
      (play_pvp_settle S r referred cr ⟨S, S, 0, 0, 0⟩
        ⟨true, true, true, true, true⟩).2.1.loserEscrow ≤
        RENT_EXEMPT_SOL) ∧
    (|(play_pvp_settle S r referred cr ⟨S, S, 0, 0, 0⟩
        ⟨true, true, true, true, true⟩).2.1.winnerWallet +
      (play_pvp_settle S r referred cr ⟨S, S, 0, 0, 0⟩
        ⟨true, true, true, true, true⟩).2.1.treasury +
      (play_pvp_settle S r referred cr ⟨S, S, 0, 0, 0⟩
        ⟨true, true, true, true, true⟩).2.1.referrerEscrow - 2 * S| ≤
      2 * RENT_EXEMPT_SOL) := by
  have hP : 0 < S * (1 - r) := by nlinarith
  have hSr : 0 ≤ S * r := mul_nonneg hS.le hr0
  have hkey :
      ((play_pvp_settle S r referred cr ⟨S, S, 0, 0, 0⟩
          ⟨true, true, true, true, true⟩).1 = GameStatus.COMPLETED) ∧
      ((play_pvp_settle S r referred cr ⟨S, S, 0, 0, 0⟩
          ⟨true, true, true, true, true⟩).2.1.winnerWallet +
        (play_pvp_settle S r referred cr ⟨S, S, 0, 0, 0⟩
          ⟨true, true, true, true, true⟩).2.1.treasury +
        (play_pvp_settle S r referred cr ⟨S, S, 0, 0, 0⟩
          ⟨true, true, true, true, true⟩).2.1.referrerEscrow +
        (play_pvp_settle S r referred cr ⟨S, S, 0, 0, 0⟩
          ⟨true, true, true, true, true⟩).2.1.winnerEscrow +
        (play_pvp_settle S r referred cr ⟨S, S, 0, 0, 0⟩
          ⟨true, true, true, true, true⟩).2.1.loserEscrow = 2 * S) ∧
      (0 ≤ (play_pvp_settle S r referred cr ⟨S, S, 0, 0, 0⟩
          ⟨true, true, true, true, true⟩).2.1.winnerEscrow ∧
        (play_pvp_settle S r referred cr ⟨S, S, 0, 0, 0⟩
          ⟨true, true, true, true, true⟩).2.1.winnerEscrow ≤
          RENT_EXEMPT_SOL) ∧
      (0 ≤ (play_pvp_settle S r referred cr ⟨S, S, 0, 0, 0⟩
          ⟨true, true, true, true, true⟩).2.1.loserEscrow ∧
        (play_pvp_settle S r referred cr ⟨S, S, 0, 0, 0⟩
          ⟨true, true, true, true, true⟩).2.1.loserEscrow ≤
          RENT_EXEMPT_SOL) := by
    unfold play_pvp_settle
    dsimp only
    split_ifs with h1 h2 h3 h4 h5 h6 h7 h8 h9 h10 h11 h12 h13 h14 <;>
      simp_all [transferOk, payout_per_escrow, fee_per_escrow,
        calculate_referral_commission, RENT_EXEMPT_SOL] <;>
      (repeat' apply And.intro) <;>
      first
        | trivial
        | ring1
        | (norm_num; done)
        | nlinarith [mul_nonneg (mul_nonneg hS.le hr0)
            (by linarith : (0 : Rat) ≤ 1 / 2 - cr)]
  obtain ⟨hst, hsum, ⟨hw0, hw1⟩, ⟨hl0, hl1⟩⟩ := hkey
  refine ⟨hst, hsum, ⟨hw0, hw1⟩, ⟨hl0, hl1⟩, ?_⟩
  rw [abs_le]
  constructor <;> linarith

/-- C4 witness: the conservation theorem at stake 1 SOL, fee rate 2%,
referral rate 10%. -/
theorem settlement_conservation_witness :
    ((play_pvp_settle 1 (1/50) true (1/10) ⟨1, 1, 0, 0, 0⟩
        ⟨true, true, true, true, true⟩).1 = GameStatus.COMPLETED) ∧
    ((play_pvp_settle 1 (1/50) true (1/10) ⟨1, 1, 0, 0, 0⟩
        ⟨true, true, true, true, true⟩).2.1.winnerWallet +
      (play_pvp_settle 1 (1/50) true (1/10) ⟨1, 1, 0, 0, 0⟩
        ⟨true, true, true, true, true⟩).2.1.treasury +
      (play_pvp_settle 1 (1/50) true (1/10) ⟨1, 1, 0, 0, 0⟩
        ⟨true, true, true, true, true⟩).2.1.referrerEscrow +
      (play_pvp_settle 1 (1/50) true (1/10) ⟨1, 1, 0, 0, 0⟩
        ⟨true, true, true, true, true⟩).2.1.winnerEscrow +
      (play_pvp_settle 1 (1/50) true (1/10) ⟨1, 1, 0, 0, 0⟩
        ⟨true, true, true, true, true⟩).2.1.loserEscrow = 2 * 1) ∧
    (0 ≤ (play_pvp_settle 1 (1/50) true (1/10) ⟨1, 1, 0, 0, 0⟩
        ⟨true, true, true, true, true⟩).2.1.winnerEscrow ∧
      (play_pvp_settle 1 (1/50) true (1/10) ⟨1, 1, 0, 0, 0⟩
        ⟨true, true, true, true, true⟩).2.1.winnerEscrow ≤ RENT_EXEMPT_SOL) ∧
    (0 ≤ (play_pvp_settle 1 (1/50) true (1/10) ⟨1, 1, 0, 0, 0⟩
        ⟨true, true, true, true, true⟩).2.1.loserEscrow ∧
      (play_pvp_settle 1 (1/50) true (1/10) ⟨1, 1, 0, 0, 0⟩
        ⟨true, true, true, true, true⟩).2.1.loserEscrow ≤ RENT_EXEMPT_SOL) ∧
    (|(play_pvp_settle 1 (1/50) true (1/10) ⟨1, 1, 0, 0, 0⟩
        ⟨true, true, true, true, true⟩).2.1.winnerWallet +
      (play_pvp_settle 1 (1/50) true (1/10) ⟨1, 1, 0, 0, 0⟩
        ⟨true, true, true, true, true⟩).2.1.treasury +
      (play_pvp_settle 1 (1/50) true (1/10) ⟨1, 1, 0, 0, 0⟩
        ⟨true, true, true, true, true⟩).2.1.referrerEscrow - 2 * 1| ≤
      2 * RENT_EXEMPT_SOL) :=
  settlement_conservation 1 (1/50) (1/10) true (by norm_num) (by norm_num)
    (by norm_num) (by norm_num) (by norm_num)
